import Mathlib

/-!
# Verification of `detect_use_of_vendored_requests.py`

A shallow embedding of the audit script that scans AWS Lambda deployment
packages for the deprecated `from botocore.vendored import requests`
pattern, together with proofs of the specified properties.

File contents are modelled as raw byte sequences (`List Nat`, one `Nat`
per byte), since the script opens files in binary mode (`"rb"`).  The
orchestration in `__main__` is modelled as a function producing a trace
of side-effect events together with either the list of printed output
lines or the error that aborted the run.
-/

/-- ASCII string to byte list.  All pattern strings in the source are
ASCII, so `Char.toNat` agrees with their UTF-8 bytes. -/
def strToBytes (s : String) : List Nat :=
  s.data.map Char.toNat

/-- Decides whether `pat` occurs at the start of `l`
(Python `bytes.startswith` / list equality at the front). -/
def isPre [DecidableEq α] : List α → List α → Bool
  | [], _ => true
  | _ :: _, [] => false
  | a :: as, b :: bs => a = b && isPre as bs

/-- Decides whether `pat` occurs contiguously anywhere inside `l`
(Python's `pat in line` on bytes / `in` on str). -/
def isSub [DecidableEq α] (pat : List α) : List α → Bool
  | [] => isPre pat []
  | b :: bs => isPre pat (b :: bs) || isSub pat bs

/-- The byte pattern `b"import botocore.vendored"`
(src line 92). -/
def importPat : List Nat := strToBytes "import botocore.vendored"

/-- The byte pattern `b"from botocore.vendored import "`
(src line 93; note the trailing space). -/
def fromImportPat : List Nat := strToBytes "from botocore.vendored import "

/-- The test applied to each line of a file (src lines 91-94): does the
line contain either deprecated-import byte pattern as a substring? -/
def lineMatches (line : List Nat) : Bool :=
  isSub importPat line || isSub fromImportPat line

/-- Splits a raw byte sequence into lines exactly as Python's iteration
over a binary file does: each line ends just after a `\n` byte (10),
which is kept; a final fragment with no trailing newline is its own
line; the empty file has no lines. -/
def splitLinesAux : List Nat → List Nat → List (List Nat)
  | [], acc => if acc = [] then [] else [acc.reverse]
  | b :: bs, acc =>
      if b = 10 then (b :: acc).reverse :: splitLinesAux bs []
      else splitLinesAux bs (b :: acc)

/-- The lines of a raw byte file, in order. -/
def splitLines (content : List Nat) : List (List Nat) :=
  splitLinesAux content []

/-- The scanning loop of `contains_vendored_imports` (src lines 90-97):
return `true` at the first matching line, `false` at end of file. -/
def scanLines : List (List Nat) → Bool
  | [] => false
  | l :: ls => if lineMatches l then true else scanLines ls

/-- Model of `contains_vendored_imports` (src lines 70-97): the classifier, on the
raw bytes of a file. -/
def contains_vendored_imports (content : List Nat) : Bool :=
  scanLines (splitLines content)

/-- Instrumented scanning loop: also counts how many lines are read
before the loop returns.  On a match the matching line has been read;
otherwise every line has. -/
def scanLinesCount : List (List Nat) → Nat × Bool
  | [] => (0, false)
  | l :: ls =>
      if lineMatches l then (1, true)
      else ((scanLinesCount ls).1 + 1, (scanLinesCount ls).2)

/-- A source file inside an unpacked deployment package: its path
relative to the scratch directory root, and its raw byte content. -/
structure SrcFile where
  relpath : String
  content : List Nat
deriving DecidableEq

/-- A downloadable deployment package: the `Content-Type` header of the
HTTP response (`none` when the header is absent, as `headers.get`
returns `None`) and the files the archive unpacks to. -/
structure Package where
  contentType : Option String
  files : List SrcFile
deriving DecidableEq

/-- A Lambda function descriptor together with the package its
`Code.Location` presigned URL resolves to. -/
structure LambdaFunction where
  FunctionName : String
  Runtime : String
  package : Package
deriving DecidableEq

/-- Side-effect events of a run, in order: downloading a deployment
package via `urlretrieve` (src line 39), creating a scratch directory
via `tempfile.mkdtemp` (src line 52), and scanning one file by calling
`contains_vendored_imports` on it (src line 138). -/
inductive Event where
  | download : String → Event
  | mkdtemp : Event
  | scan : String → Event
deriving DecidableEq

/-- The one error the script raises itself: the `RuntimeError` of
src lines 46-49 for an unrecognised `Content-Type`, which the spec names
`UnsupportedPackageFormat`.  Carries the function name and the declared
content type from the message. -/
inductive ScanError where
  | unsupportedPackageFormat : String → Option String → ScanError
deriving DecidableEq

/-- Model of `get_lambda_source_code` (src lines 29-57): download the package,
check its declared `Content-Type` against `"application/zip"`, and only
then create the scratch directory and unpack.  Returns the event trace
together with the unpacked files or the fatal error. -/
def get_lambda_source_code (function_name : String) (pkg : Package) :
    List Event × Except ScanError (List SrcFile) :=
  if pkg.contentType = some "application/zip" then
    ([Event.download function_name, Event.mkdtemp], Except.ok pkg.files)
  else
    ([Event.download function_name],
     Except.error (ScanError.unsupportedPackageFormat function_name pkg.contentType))

/-- Python `s.startswith(pat)` on strings. -/
def strStarts (pat s : String) : Bool :=
  isPre pat.data s.data

/-- Python `s.endswith(pat)` on strings. -/
def strEnds (pat s : String) : Bool :=
  isPre pat.data.reverse s.data.reverse

/-- Python `pat in s` on strings. -/
def strContains (pat s : String) : Bool :=
  isSub pat.data s.data

/-- The files the main loop classifies for one function: `.py` files
(the filter of `find_python_paths`, src line 66) whose relative path
does not start with `boto3/` or `botocore/` (the exclusion of
src lines 133-136). -/
def eligible_files (files : List SrcFile) : List SrcFile :=
  files.filter fun f =>
    strEnds ".py" f.relpath &&
    !(strStarts "boto3/" f.relpath || strStarts "botocore/" f.relpath)

/-- The eligible files the classifier flags (src lines 138-141). -/
def finding_files (files : List SrcFile) : List SrcFile :=
  (eligible_files files).filter fun f => contains_vendored_imports f.content

/-- Model of `paths_with_vendored_imports` (src lines 128-141): relative paths of
flagged files, in filesystem-walk order. -/
def collect_findings (files : List SrcFile) : List String :=
  (finding_files files).map fun f => f.relpath

/-- The findings as printed: sorted lexicographically, as by Python's
`sorted` (src line 148). -/
def sorted_findings (files : List SrcFile) : List String :=
  List.insertionSort (fun a b : String => a ≤ b) (collect_findings files)

/-- ANSI style constants of class `bcolors` (src lines 100-105). -/
def OKGREEN : String := "\x1b[92m"

/-- ANSI red, `bcolors.FAIL`. -/
def FAIL : String := "\x1b[91m"

/-- ANSI reset, `bcolors.ENDC`. -/
def ENDC : String := "\x1b[0m"

/-- ANSI underline, `bcolors.UNDERLINE`. -/
def UNDERLINE : String := "\x1b[4m"

/-- Model of `pretty_function_name` (src lines 108-109). -/
def pretty_function_name (function_name : String) : String :=
  UNDERLINE ++ function_name ++ ENDC

/-- The lines printed for one function (src lines 143-155): a FAIL
banner followed by one indented line per finding in sorted order, or an
OK banner when there are no findings. -/
def reportLines (function_name : String) (findings : List String) : List String :=
  if findings.isEmpty then
    ["[ " ++ OKGREEN ++ "OK" ++ ENDC ++ " ] No vendored imports in " ++
      pretty_function_name function_name]
  else
    ("[" ++ FAIL ++ "FAIL" ++ ENDC ++ "] Vendored imports detected in " ++
      pretty_function_name function_name ++ ":") ::
    (List.insertionSort (fun a b : String => a ≤ b) findings).map
      fun path => "       - " ++ path

/-- The per-function runtime filter (src lines 117-120): the function is
processed only when its runtime label contains `"python"`. -/
def shouldProcess (fn : LambdaFunction) : Bool :=
  strContains "python" fn.Runtime

/-- The fetch-and-scan of one (python-runtime) function (src
lines 122-155): fetch and unpack, then classify every eligible file
(each classifier call is a `scan` event) and print the report. -/
def processOne (fn : LambdaFunction) : List Event × Except ScanError (List String) :=
  match get_lambda_source_code fn.FunctionName fn.package with
  | (evs, Except.error e) => (evs, Except.error e)
  | (evs, Except.ok files) =>
      (evs ++ (eligible_files files).map fun f => Event.scan f.relpath,
       Except.ok (reportLines fn.FunctionName (collect_findings files)))

/-- The main loop (src lines 115-155) over the flattened function
listing: skip non-python runtimes, process the rest in order, abort the
whole run at the first error (errors are not caught per-function).
Returns the event trace so far and either all printed lines or the
aborting error. -/
def runMain : List LambdaFunction → List Event × Except ScanError (List String)
  | [] => ([], Except.ok [])
  | fn :: fns =>
      if shouldProcess fn then
        match processOne fn with
        | (evs, Except.error e) => (evs, Except.error e)
        | (evs, Except.ok out) =>
            ((evs ++ (runMain fns).1),
             match (runMain fns).2 with
             | Except.error e => Except.error e
             | Except.ok outs => Except.ok (out ++ outs))
      else runMain fns

/-- Model of `get_all_functions` (src lines 19-26): flatten the pages of the
paginated `list_functions` call into one sequence. -/
def get_all_functions : List (List LambdaFunction) → List LambdaFunction
  | [] => []
  | page :: pages => page ++ get_all_functions pages

theorem scanLinesCount_snd (ls : List (List Nat)) :
    (scanLinesCount ls).2 = scanLines ls := by
  induction ls with
  | nil => rfl
  | cons l ls ih =>
      by_cases h : lineMatches l = true
      · simp [scanLinesCount, scanLines, h]
      · simp only [Bool.not_eq_true] at h
        simp [scanLinesCount, scanLines, h, ih]

theorem scanLines_eq_any (ls : List (List Nat)) :
    scanLines ls = ls.any lineMatches := by
  induction ls with
  | nil => rfl
  | cons l ls ih =>
      by_cases h : lineMatches l = true
      · simp [scanLines, h]
      · simp only [Bool.not_eq_true] at h
        simp [scanLines, h, ih]

theorem isPre_append [DecidableEq α] (pat rest : List α) :
    isPre pat (pat ++ rest) = true := by
  induction pat with
  | nil => rfl
  | cons a as ih => simp [isPre, ih]

theorem isSub_of_starts [DecidableEq α] (pat rest : List α) :
    isSub pat (pat ++ rest) = true := by
  cases h : pat ++ rest with
  | nil => cases pat with
    | nil => rfl
    | cons a as => simp at h
  | cons b bs =>
      rw [isSub, ← h, isPre_append]
      rfl

theorem scanLinesCount_all_false (ls : List (List Nat))
    (h : ∀ l ∈ ls, lineMatches l = false) :
    scanLinesCount ls = (ls.length, false) := by
  induction ls with
  | nil => rfl
  | cons l ls ih =>
      have hl := h l (List.mem_cons_self l ls)
      have ht : ∀ m ∈ ls, lineMatches m = false := fun m hm => h m (List.mem_cons_of_mem l hm)
      simp [scanLinesCount, hl, ih ht]

theorem lineMatches_of_sub_import (line : List Nat)
    (h : isSub importPat line = true) : lineMatches line = true := by
  simp [lineMatches, h]

theorem runMain_skip (fn : LambdaFunction) (h : shouldProcess fn = false)
    (pre post : List LambdaFunction) :
    runMain (pre ++ fn :: post) = runMain (pre ++ post) := by
  induction pre with
  | nil => simp [runMain, h]
  | cons g pre ih => simp only [List.cons_append, runMain, List.append_eq, ih]

theorem collect_findings_perm {files₁ files₂ : List SrcFile}
    (hp : files₁.Perm files₂) :
    (collect_findings files₁).Perm (collect_findings files₂) := by
  unfold collect_findings finding_files eligible_files
  exact ((hp.filter _).filter _).map _

theorem sorted_sorted_findings (files : List SrcFile) :
    (sorted_findings files).Sorted (fun a b : String => a ≤ b) :=
  List.sorted_insertionSort _ _

/-- C1: every source file that contains the exact line
`from botocore.vendored import requests` or the exact line
`import botocore.vendored` (as one of its lines, with or without the
trailing newline byte) is classified `true` by
`contains_vendored_imports`. -/
theorem C1_exact_import_line_flags (content : List Nat)
    (h : (∃ l ∈ splitLines content,
            l = strToBytes "from botocore.vendored import requests" ∨
            l = strToBytes "from botocore.vendored import requests" ++ [10]) ∨
         (∃ l ∈ splitLines content,
            l = strToBytes "import botocore.vendored" ∨
            l = strToBytes "import botocore.vendored" ++ [10])) :
    contains_vendored_imports content = true := by
  unfold contains_vendored_imports
  rw [scanLines_eq_any, List.any_eq_true]
  rcases h with ⟨l, hl, hcase⟩ | ⟨l, hl, hcase⟩ <;>
    refine ⟨l, hl, ?_⟩ <;> rcases hcase with rfl | rfl <;> decide

theorem C1_exact_import_line_flags_witness :
    contains_vendored_imports
      (strToBytes "from botocore.vendored import requests\nx = 1\n") = true :=
  C1_exact_import_line_flags _ (by decide)

/-- C2 counterexample: the file whose single line is
`# import botocore.vendored` has no line exactly matching
`from botocore.vendored import requests` or `import botocore.vendored`
(with or without a trailing newline), yet the classifier returns `true`,
because matching is by substring within a line. -/
theorem C2_counterexample_comment_line :
    (∀ l ∈ splitLines (strToBytes "# import botocore.vendored"),
        l ≠ strToBytes "from botocore.vendored import requests" ∧
        l ≠ strToBytes "from botocore.vendored import requests" ++ [10] ∧
        l ≠ strToBytes "import botocore.vendored" ∧
        l ≠ strToBytes "import botocore.vendored" ++ [10]) ∧
    contains_vendored_imports (strToBytes "# import botocore.vendored") = true := by
  decide

/-- C2 (amended): for every file in which no line contains the byte
pattern `import botocore.vendored` or `from botocore.vendored import `
as a substring, the classifier returns `false`, and the scanning loop
reads every line of the file before returning (no early termination
without a match). -/
theorem C2_no_match_reads_whole_file (content : List Nat)
    (h : ∀ l ∈ splitLines content, lineMatches l = false) :
    contains_vendored_imports content = false ∧
    scanLinesCount (splitLines content) = ((splitLines content).length, false) := by
  refine ⟨?_, scanLinesCount_all_false _ h⟩
  unfold contains_vendored_imports
  rw [scanLines_eq_any]
  simp only [List.any_eq_false, Bool.not_eq_true]
  exact h

theorem C2_no_match_reads_whole_file_witness :
    contains_vendored_imports (strToBytes "x = 1\nimport os\n") = false ∧
    scanLinesCount (splitLines (strToBytes "x = 1\nimport os\n")) =
      ((splitLines (strToBytes "x = 1\nimport os\n")).length, false) :=
  C2_no_match_reads_whole_file _ (by decide)

/-- C9: a file in which the bytes `import botocore.vendored` occur only
inside a comment line (no line of the file is an import statement: none
starts with `import` or `from`, and none equals either deprecated
spelling) is still classified `true`: matching is by substring within
any line, not by exact-line or parsed-import comparison. -/
theorem C9_substring_match_inside_comment :
    (∀ l ∈ splitLines (strToBytes "x = 1\n# see import botocore.vendored here\nprint(x)\n"),
        isPre (strToBytes "import") l = false ∧
        isPre (strToBytes "from") l = false ∧
        l ≠ strToBytes "import botocore.vendored" ∧
        l ≠ strToBytes "from botocore.vendored import requests") ∧
    contains_vendored_imports
      (strToBytes "x = 1\n# see import botocore.vendored here\nprint(x)\n") = true := by
  decide

/-- C7: the classifier is a total function on arbitrary raw byte
contents — including byte sequences that are not valid UTF-8, since the
file is opened in byte mode and matched against byte substrings — and
its result is exactly whether some line contains one of the two byte
patterns.  The two closing conjuncts evaluate it on concrete non-UTF8
contents (bytes `255`, `254`, `200`, `128` begin no valid UTF-8
character at those positions). -/
theorem C7_total_on_raw_bytes :
    (∀ content : List Nat,
        contains_vendored_imports content = true ↔
          ∃ l ∈ splitLines content,
            isSub importPat l = true ∨ isSub fromImportPat l = true) ∧
    contains_vendored_imports
      (255 :: 254 :: 10 :: strToBytes "import botocore.vendored") = true ∧
    contains_vendored_imports [255, 254, 200, 10, 128] = false := by
  refine ⟨?_, by decide, by decide⟩
  intro content
  unfold contains_vendored_imports
  rw [scanLines_eq_any, List.any_eq_true]
  simp only [lineMatches, Bool.or_eq_true]

theorem get_all_functions_eq_nil :
    ∀ pages : List (List LambdaFunction),
      (∀ page ∈ pages, page = []) → get_all_functions pages = []
  | [], _ => rfl
  | p :: ps, h => by
      have hp : p = [] := h p (List.mem_cons_self p ps)
      have hps := get_all_functions_eq_nil ps fun q hq => h q (List.mem_cons_of_mem p hq)
      simp [get_all_functions, hp, hps]

/-- C3: a file of an unpacked deployment package whose relative path
starts with `boto3/` or `botocore/` is never among the files the driver
classifies, hence never among a function's findings, regardless of the
file's content. -/
theorem C3_first_party_prefix_never_a_finding (files : List SrcFile) (f : SrcFile)
    (_hf : f ∈ files)
    (hx : strStarts "boto3/" f.relpath = true ∨ strStarts "botocore/" f.relpath = true) :
    f ∉ eligible_files files ∧ f ∉ finding_files files := by
  have he : f ∉ eligible_files files := by
    intro hmem
    rw [eligible_files, List.mem_filter] at hmem
    rcases hmem with ⟨-, hpred⟩
    rcases hx with hx | hx <;> simp [hx] at hpred
  exact ⟨he, fun hmem => he (List.mem_of_mem_filter hmem)⟩

theorem C3_first_party_prefix_never_a_finding_witness :
    contains_vendored_imports (strToBytes "from botocore.vendored import requests\n") = true ∧
    (⟨"boto3/vendored_helper.py", strToBytes "from botocore.vendored import requests\n"⟩ : SrcFile) ∉
      finding_files
        [⟨"boto3/vendored_helper.py", strToBytes "from botocore.vendored import requests\n"⟩] :=
  ⟨by decide,
   (C3_first_party_prefix_never_a_finding
      [⟨"boto3/vendored_helper.py", strToBytes "from botocore.vendored import requests\n"⟩]
      ⟨"boto3/vendored_helper.py", strToBytes "from botocore.vendored import requests\n"⟩
      (by decide) (Or.inl (by decide))).2⟩

/-- C4: for every function with findings, the printed list of offending
relative paths is sorted lexicographically, and it is identical for
every permutation of the order in which the filesystem walk yields the
files. -/
theorem C4_findings_sorted_and_walk_order_invariant (files₁ files₂ : List SrcFile)
    (hp : files₁.Perm files₂) :
    (sorted_findings files₁).Sorted (fun a b : String => a ≤ b) ∧
    sorted_findings files₁ = sorted_findings files₂ := by
  refine ⟨sorted_sorted_findings files₁, ?_⟩
  have h₁ := List.perm_insertionSort (fun a b : String => a ≤ b) (collect_findings files₁)
  have h₂ := List.perm_insertionSort (fun a b : String => a ≤ b) (collect_findings files₂)
  exact List.eq_of_perm_of_sorted (h₁.trans ((collect_findings_perm hp).trans h₂.symm))
    (sorted_sorted_findings files₁) (sorted_sorted_findings files₂)

theorem C4_findings_sorted_and_walk_order_invariant_witness :
    (sorted_findings
        [⟨"b.py", strToBytes "import botocore.vendored\n"⟩,
         ⟨"a.py", strToBytes "import botocore.vendored\n"⟩]).Sorted
      (fun a b : String => a ≤ b) ∧
    sorted_findings
        [⟨"b.py", strToBytes "import botocore.vendored\n"⟩,
         ⟨"a.py", strToBytes "import botocore.vendored\n"⟩] =
      sorted_findings
        [⟨"a.py", strToBytes "import botocore.vendored\n"⟩,
         ⟨"b.py", strToBytes "import botocore.vendored\n"⟩] :=
  C4_findings_sorted_and_walk_order_invariant
    [⟨"b.py", strToBytes "import botocore.vendored\n"⟩,
     ⟨"a.py", strToBytes "import botocore.vendored\n"⟩]
    [⟨"a.py", strToBytes "import botocore.vendored\n"⟩,
     ⟨"b.py", strToBytes "import botocore.vendored\n"⟩]
    (by decide)

/-- C5: a function whose runtime label does not contain the substring
`python` is never fetched (no download of its deployment package) and
none of its files is ever scanned: alone it produces no events and no
output, and wherever it appears in the listing, the run is identical to
the run without it. -/
theorem C5_non_python_runtime_never_fetched_or_scanned (fn : LambdaFunction)
    (h : strContains "python" fn.Runtime = false) :
    runMain [fn] = ([], Except.ok []) ∧
    ∀ pre post, runMain (pre ++ fn :: post) = runMain (pre ++ post) := by
  have hs : shouldProcess fn = false := h
  exact ⟨(runMain_skip fn hs [] []).trans rfl, fun pre post => runMain_skip fn hs pre post⟩

theorem C5_non_python_runtime_never_fetched_or_scanned_witness :
    runMain [⟨"thumbnailer", "nodejs18.x",
      ⟨some "application/zip",
       [⟨"index.js", strToBytes "import botocore.vendored"⟩]⟩⟩] = ([], Except.ok []) :=
  (C5_non_python_runtime_never_fetched_or_scanned
    ⟨"thumbnailer", "nodejs18.x",
      ⟨some "application/zip",
       [⟨"index.js", strToBytes "import botocore.vendored"⟩]⟩⟩ (by decide)).1

/-- C6: when a processed function's downloaded package declares a
`Content-Type` other than `application/zip`, the run ends at once with
the unsupported-package-format error: the remaining functions are never
reached, no file of that package is ever scanned, and no scratch
directory is created — the trace holds only the download event. -/
theorem C6_wrong_content_type_aborts_run (fn : LambdaFunction)
    (post : List LambdaFunction)
    (h1 : shouldProcess fn = true)
    (h2 : fn.package.contentType ≠ some "application/zip") :
    runMain (fn :: post) =
      ([Event.download fn.FunctionName],
       Except.error (ScanError.unsupportedPackageFormat fn.FunctionName fn.package.contentType)) ∧
    (∀ p, Event.scan p ∉ (runMain (fn :: post)).1) ∧
    Event.mkdtemp ∉ (runMain (fn :: post)).1 := by
  have hg : get_lambda_source_code fn.FunctionName fn.package =
      ([Event.download fn.FunctionName],
       Except.error (ScanError.unsupportedPackageFormat fn.FunctionName fn.package.contentType)) := by
    unfold get_lambda_source_code
    rw [if_neg h2]
  have hr : runMain (fn :: post) =
      ([Event.download fn.FunctionName],
       Except.error (ScanError.unsupportedPackageFormat fn.FunctionName fn.package.contentType)) := by
    simp [runMain, processOne, hg, h1]
  refine ⟨hr, fun p => ?_, ?_⟩ <;> rw [hr] <;> simp

theorem C6_wrong_content_type_aborts_run_witness :
    runMain
      [⟨"image-resizer", "python3.9",
          ⟨some "application/x-tar",
           [⟨"handler.py", strToBytes "from botocore.vendored import requests\n"⟩]⟩⟩,
       ⟨"other-fn", "python3.9", ⟨some "application/zip", []⟩⟩] =
      ([Event.download "image-resizer"],
       Except.error
         (ScanError.unsupportedPackageFormat "image-resizer" (some "application/x-tar"))) :=
  (C6_wrong_content_type_aborts_run
    ⟨"image-resizer", "python3.9",
      ⟨some "application/x-tar",
       [⟨"handler.py", strToBytes "from botocore.vendored import requests\n"⟩]⟩⟩
    [⟨"other-fn", "python3.9", ⟨some "application/zip", []⟩⟩]
    (by decide) (by decide)).1

/-- C8: when the account's function listing is empty — every page of the
paginated listing holds zero functions — the flattened listing is empty,
the program performs no side effects, prints no output lines, and
terminates without error. -/
theorem C8_zero_functions_no_output (pages : List (List LambdaFunction))
    (h : ∀ page ∈ pages, page = []) :
    get_all_functions pages = [] ∧
    runMain (get_all_functions pages) = ([], Except.ok []) := by
  have hg := get_all_functions_eq_nil pages h
  exact ⟨hg, by rw [hg]; rfl⟩

theorem C8_zero_functions_no_output_witness :
    get_all_functions [[], [], []] = [] ∧
    runMain (get_all_functions [[], [], []]) = ([], Except.ok []) :=
  C8_zero_functions_no_output [[], [], []] (by decide)

/-- C10: when the download response carries no `Content-Type` header at
all (`headers.get` returns `None`), `get_lambda_source_code` raises the
same unsupported-package-format error as for a wrong content type, and
no scratch directory is created before the error — the trace holds only
the download event, no `mkdtemp`. -/
theorem C10_missing_content_type_same_error (function_name : String) (pkg : Package)
    (h : pkg.contentType = none) :
    get_lambda_source_code function_name pkg =
      ([Event.download function_name],
       Except.error (ScanError.unsupportedPackageFormat function_name none)) ∧
    Event.mkdtemp ∉ (get_lambda_source_code function_name pkg).1 := by
  have hg : get_lambda_source_code function_name pkg =
      ([Event.download function_name],
       Except.error (ScanError.unsupportedPackageFormat function_name none)) := by
    unfold get_lambda_source_code
    rw [h]
    simp
  exact ⟨hg, by rw [hg]; simp⟩

theorem C10_missing_content_type_same_error_witness :
    get_lambda_source_code "legacy-fn" ⟨none, [⟨"main.py", strToBytes "x = 1\n"⟩]⟩ =
      ([Event.download "legacy-fn"],
       Except.error (ScanError.unsupportedPackageFormat "legacy-fn" none)) ∧
    Event.mkdtemp ∉
      (get_lambda_source_code "legacy-fn" ⟨none, [⟨"main.py", strToBytes "x = 1\n"⟩]⟩).1 :=
  C10_missing_content_type_same_error "legacy-fn" ⟨none, [⟨"main.py", strToBytes "x = 1\n"⟩]⟩ rfl
